import Mathlib

/-!
Shallow embedding of the transaction-algorithm engine and the
budget-department registry of `sc4-custom-budget-departments`.

Modelling conventions, applied uniformly:

* C++ machine integers (`int32_t`, `int64_t`, `uint32_t`) are embedded as
  `Int` / `Nat`; none of the verified paths exercise wrap-around.
* IEEE-754 `float` / `double` values are embedded as exact rationals (`ℚ`):
  every floating-point value is a rational, and the claims are evaluated
  only at inputs whose products are exactly representable, where float
  arithmetic and rational arithmetic agree.  `static_cast<int64_t>` of a
  floating value truncates toward zero, embedded as `truncQ`.
* C++ `/` on `int64_t` truncates toward zero, embedded as `Int.tdiv`.
* The process-wide `spPopulationProvider` pointer is passed explicitly as
  an `Option PopulationProvider` argument (`none` models a null pointer).
-/

/-- Truncation toward zero of a rational, the semantics of C++
`static_cast<int64_t>` applied to a floating-point value: the numerator
divided by the (positive) denominator, rounding toward zero.
`truncQ_eq_floor_ceil` below checks this against the floor/ceil
characterisation of truncate-toward-zero. -/
def truncQ (q : ℚ) : Int :=
  q.num.tdiv q.den

/-- Embedding of `IPopulationProvider`: `GetCityResidentialPopulation`
returns `int32_t`, `GetCityPopulation(demandId)` returns `int32_t`,
`GetRegionPopulation(demandId)` returns `int64_t`.  The demand-id keyed
queries are embedded as functions from the id. -/
structure PopulationProvider where
  cityResidentialPopulation : Int
  cityPopulation : Nat → Int
  regionPopulation : Nat → Int

/-- The demand id for the low wealth tier (`0x1010`). -/
def lowWealthDemandId : Nat := 0x1010
/-- The demand id for the medium wealth tier (`0x1020`). -/
def mediumWealthDemandId : Nat := 0x1020
/-- The demand id for the high wealth tier (`0x1030`). -/
def highWealthDemandId : Nat := 0x1030

/-- The state of a (non-Fixed) transaction algorithm instance.
Float-typed factor fields hold binary32 `float` values in the source;
they are embedded as exact rationals (every float value is a rational),
and every concrete claim instance is evaluated only at
float32-representable rationals whose products with the population
figures are exactly representable in `double`, so the embedding and the
program agree exactly there.  The `geopoliticsFactor` of
`TourismAlgorithm` is an `int64_t`. -/
inductive Alg where
  | resTotal (populationFactor : ℚ)
  | wealthGroup (lowWealthPopulationFactor mediumWealthPopulationFactor highWealthPopulationFactor : ℚ)
  | tourism (nationalAndInternationalTourismFactor : ℚ) (geopoliticsFactor : Int)
deriving DecidableEq, Repr

/-- `GetAlgorithmType` of each variant, as the `uint32_t` value of
`TransactionAlgorithmType` (`Fixed = 0` is the absent-algorithm case and
never has an instance). -/
def algType : Alg → Nat
  | .resTotal _ => 1
  | .wealthGroup _ _ _ => 2
  | .tourism _ _ => 3

/-- `TourismAlgorithm::GetRegionalTourismPopulation(demandId)`:
`GetRegionPopulation(demandId)` promoted to `double`, multiplied by the
tourism factor, truncated to `int64_t`.  Only called when the provider is
non-null. -/
def getRegionalTourismPopulation (p : PopulationProvider) (factor : ℚ) (demandId : Nat) : Int :=
  truncQ ((p.regionPopulation demandId : ℚ) * factor)

/-- `Calculate(initialTotal)` of each algorithm variant, with the global
`spPopulationProvider` passed explicitly.  When the provider pointer is
null every variant returns `initialTotal` unchanged. -/
def algCalculate (a : Alg) (provider : Option PopulationProvider) (initialTotal : Int) : Int :=
  match provider with
  | none => initialTotal
  | some p =>
    match a with
    | .resTotal factor =>
        initialTotal + truncQ ((p.cityResidentialPopulation : ℚ) * factor)
    | .wealthGroup low med high =>
        initialTotal
          + truncQ ((p.cityPopulation lowWealthDemandId : ℚ) * low)
          + truncQ ((p.cityPopulation mediumWealthDemandId : ℚ) * med)
          + truncQ ((p.cityPopulation highWealthDemandId : ℚ) * high)
    | .tourism factor geopoliticsFactor =>
        let populationSum :=
          p.cityPopulation lowWealthDemandId
            + p.cityPopulation mediumWealthDemandId
            + p.cityPopulation highWealthDemandId
            + getRegionalTourismPopulation p factor lowWealthDemandId
            + getRegionalTourismPopulation p factor mediumWealthDemandId
            + getRegionalTourismPopulation p factor highWealthDemandId
        initialTotal + populationSum.tdiv geopoliticsFactor

/-- Embedding of `LineItemTransaction`: an optional algorithm (Fixed is
`none`), the per-building fixed cash flow (`int64_t`) and the income
flag. -/
structure LineItemTransaction where
  algorithm : Option Alg
  perBuildingFixedCashFlow : Int
  isIncome : Bool
deriving DecidableEq, Repr

/-- The default-constructed `LineItemTransaction`. -/
def defaultLineItemTransaction : LineItemTransaction :=
  ⟨none, 0, false⟩

/-- `LineItemTransaction::CalculateLineItemTotal(buildingCount)`. -/
def calculateLineItemTotal (provider : Option PopulationProvider)
    (t : LineItemTransaction) (buildingCount : Int) : Int :=
  if buildingCount > 0 then
    let total := t.perBuildingFixedCashFlow * buildingCount
    match t.algorithm with
    | some a => algCalculate a provider total
    | none => total
  else 0

/-- `LineItemTransaction::IsFixedCost`. -/
def isFixedCost (t : LineItemTransaction) : Bool :=
  t.algorithm.isNone

/-!
## Transaction algorithm factory

`TransactionAlgorithmFactory::Create` has two overloads: one from a stored
type tag (deserialization) and one from declarative building property
data.  A thrown `CreateTransactionAlgorithmException` is embedded as
`Except.error`.  A building's `cISCPropertyHolder` is embedded as a record
of the typed property values the plugin consumes; a `none` field covers
every way `GetProperty`/variant-type checking can fail for that property
(missing property, null variant, wrong variant type or count).
-/

/-- Failure modes of algorithm construction.  `message` is a thrown
`CreateTransactionAlgorithmException`; `outOfBounds` marks the spot where
the source would index `lineItemData` past its end (undefined behaviour
in C++: the loop in `GetLineItemData` copies indices
`lineItemStartIndex + 1 .. groupCountWithLineNumber - 1`, which yields
fewer than 3 elements whenever the matching group is not the first). -/
inductive CreateError where
  | message
  | outOfBounds
deriving DecidableEq, Repr

/-- The typed declarative property values a building's property holder can
carry, one field per property id the plugin reads. -/
structure PropertyHolder where
  /-- `0xEA54D285` purpose array (`Uint32Array`). -/
  purpose : Option (List Nat) := none
  /-- `0xEA54D283` department-id array (`Uint32Array`). -/
  departmentIds : Option (List Nat) := none
  /-- `0xEA54D284` line-number array (`Uint32Array`). -/
  lineNumberIds : Option (List Nat) := none
  /-- `0xEA54D286` cost array (`Sint64Array`). -/
  costs : Option (List Int) := none
  /-- `0x90222B81` budget-group table (`Uint32Array` of id/value pairs). -/
  budgetGroups : Option (List Nat) := none
  /-- `0x4252085F` department-name-key table (`Uint32Array` of triples). -/
  departmentNames : Option (List Nat) := none
  /-- `0x9EE1240F` line-item algorithm table (`Uint32Array` of pairs). -/
  lineItemAlgorithm : Option (List Nat) := none
  /-- `0x9EE12410` ResidentialTotalPopulation expense factor (`Float32`). -/
  resTotalExpenseFactor : Option ℚ := none
  /-- `0x9EE12411` ResidentialTotalPopulation income factor (`Float32`). -/
  resTotalIncomeFactor : Option ℚ := none
  /-- `0x9EE12412` ResidentialWealthGroupPopulation expense factors (`Float32Array`). -/
  wealthGroupExpenseFactors : Option (List ℚ) := none
  /-- `0x9EE12413` ResidentialWealthGroupPopulation income factors (`Float32Array`). -/
  wealthGroupIncomeFactors : Option (List ℚ) := none
  /-- `0x9EE12414` Tourism factors (`Sint64Array` of 4-element groups). -/
  tourismFactors : Option (List Int) := none

/-- `FindLineItemDataStartIndex`: the data must hold at least one group
and divide evenly into groups; the first group whose leading element is
the line number gives the start index (`none` models `SIZE_MAX`). -/
def findLineItemDataStartIndex (data : List Int) (lineNumber : Int)
    (groupCountWithLineNumber : Nat) : Option Nat :=
  if groupCountWithLineNumber ≤ data.length ∧ data.length % groupCountWithLineNumber = 0 then
    ((List.range (data.length / groupCountWithLineNumber)).find?
        (fun k => data.getD (k * groupCountWithLineNumber) 0 == lineNumber)).map
      (· * groupCountWithLineNumber)
  else
    none

/-- `GetLineItemData`: locate the group for `lineNumber` and copy the data
after the line number.  Mirrors the source loop bound
`i < groupCountWithLineNumber` exactly (not `startIndex +
groupCountWithLineNumber`), so a match in a later group yields a short
(or empty) result. -/
def getLineItemData (prop : Option (List Int)) (lineNumber : Int)
    (groupCountWithLineNumber : Nat) : Except CreateError (List Int) :=
  match prop with
  | none => .error .message
  | some data =>
    match findLineItemDataStartIndex data lineNumber groupCountWithLineNumber with
    | none => .error .message
    | some startIndex =>
      .ok ((List.range' (startIndex + 1) (groupCountWithLineNumber - (startIndex + 1))).map
        (fun i => data.getD i 0))

/-- `Rational64ToFloat`: numerator limited to `int32_t` range, denominator
to `1 .. INT32_MAX`; a zero numerator short-circuits to `0.0f`, otherwise
the quotient is formed (embedded exactly; the source computes it in
`double` and narrows to `float`). -/
def rational64ToFloat (numerator denominator : Int) : Except CreateError ℚ :=
  if numerator < -(2^31) ∨ numerator > 2^31 - 1 then
    .error .message
  else if denominator ≤ 0 ∨ denominator > 2^31 - 1 then
    .error .message
  else if numerator = 0 then
    .ok 0
  else
    .ok ((numerator : ℚ) / (denominator : ℚ))

/-- The deserialization-time overload
`TransactionAlgorithmFactory::Create(TransactionAlgorithmType)`: `Fixed`
(0) yields no algorithm, the three variable types yield their
default-constructed instance (`ResidentialTotalPopulationAlgorithm`'s
default factor is the `float` value `0.005f`, exactly
`10737418 / 2^31`), anything else throws. -/
def createFromType (ty : Nat) : Except CreateError (Option Alg) :=
  if ty = 0 then .ok none
  else if ty = 1 then .ok (some (.resTotal (10737418 / 2^31)))
  else if ty = 2 then .ok (some (.wealthGroup 0 0 0))
  else if ty = 3 then .ok (some (.tourism 0 0))
  else .error .message

/-- The declarative overload `TransactionAlgorithmFactory::Create(
pPropertyHolder, type, lineNumber, isIncome)`.  Types other than the
three variable algorithms (including `Fixed` and every unknown value)
fall through all three branches and return the initial null handle. -/
def createFromProps (ph : PropertyHolder) (ty : Nat) (lineNumber : Nat)
    (isIncome : Bool) : Except CreateError (Option Alg) :=
  if ty = 1 then
    match (if isIncome then ph.resTotalIncomeFactor else ph.resTotalExpenseFactor) with
    | none => .error .message
    | some factor => .ok (some (.resTotal factor))
  else if ty = 2 then
    match (if isIncome then ph.wealthGroupIncomeFactors else ph.wealthGroupExpenseFactors) with
    | none => .error .message
    | some values =>
      if values.length = 3 then
        .ok (some (.wealthGroup (values.getD 0 0) (values.getD 1 0) (values.getD 2 0)))
      else
        .error .message
  else if ty = 3 then
    match getLineItemData ph.tourismFactors (lineNumber : Int) 4 with
    | .error e => .error e
    | .ok lineItemData =>
      if 3 ≤ lineItemData.length then
        match rational64ToFloat (lineItemData.getD 0 0) (lineItemData.getD 1 0) with
        | .error e => .error e
        | .ok factor => .ok (some (.tourism factor (lineItemData.getD 2 0)))
      else
        .error .outOfBounds
  else
    .ok none

/-!
## Serialization

The host's `cIGZIStream`/`cIGZOStream` is embedded as a list of typed
items, one per primitive `Get`/`Set` call; this matches the byte stream
exactly along every path where reads are issued in the same order and at
the same types as the writes that produced the data (in particular for
the write-then-read round trip).  A failed primitive read leaves the
stream position and the out-parameter unchanged, mirroring that the
source initialises each out-variable before the call.  `float` payloads
are carried as exact rationals; equality of carried values is equality of
the stored `float` bits (the value↦bits map is injective on floats).
-/

/-- One primitive item of a stream. -/
inductive StreamItem where
  | u32 (v : Nat)
  | i64 (v : Int)
  | u8 (v : Nat)
  | f32 (v : ℚ)
deriving DecidableEq, Repr

/-- `GetUint32`: succeeds only on a `u32` item at the head. -/
def getUint32 : List StreamItem → Option (Nat × List StreamItem)
  | .u32 v :: rest => some (v, rest)
  | _ => none

/-- `GetSint64`. -/
def getSint64 : List StreamItem → Option (Int × List StreamItem)
  | .i64 v :: rest => some (v, rest)
  | _ => none

/-- `GetVoid` of a single byte, as used by the `ReadBoolean` helper. -/
def getUint8 : List StreamItem → Option (Nat × List StreamItem)
  | .u8 v :: rest => some (v, rest)
  | _ => none

/-- `GetFloat32`. -/
def getFloat32 : List StreamItem → Option (ℚ × List StreamItem)
  | .f32 v :: rest => some (v, rest)
  | _ => none

/-- `GetUint32` with the result variable pre-initialised to zero and the
return value discarded, the pattern `uint32_t x = 0; stream.GetUint32(x);`
used by `CustomBudgetDepartmentManager::ReadFromDBSegment`. -/
def getUint32D (s : List StreamItem) : Nat × List StreamItem :=
  match getUint32 s with
  | some r => r
  | none => (0, s)

/-- `WriteBoolean`: the flag narrowed to a single byte. -/
def writeBoolean (b : Bool) : StreamItem :=
  .u8 (if b then 1 else 0)

/-- The `Write` routine of each algorithm variant. -/
def algWrite : Alg → List StreamItem
  | .resTotal factor => [.f32 factor]
  | .wealthGroup low med high => [.f32 low, .f32 med, .f32 high]
  | .tourism factor geopoliticsFactor => [.f32 factor, .i64 geopoliticsFactor]

/-- The `Read` routine of each algorithm variant, applied to the current
instance: `&&`-chained primitive reads assigning fields left to right, so
a failure part-way keeps the fields already assigned. -/
def algRead (a : Alg) (s : List StreamItem) : Bool × Alg × List StreamItem :=
  match a with
  | .resTotal _ =>
    match getFloat32 s with
    | some (f, s1) => (true, .resTotal f, s1)
    | none => (false, a, s)
  | .wealthGroup _ med high =>
    match getFloat32 s with
    | none => (false, a, s)
    | some (low', s1) =>
      match getFloat32 s1 with
      | none => (false, .wealthGroup low' med high, s1)
      | some (med', s2) =>
        match getFloat32 s2 with
        | none => (false, .wealthGroup low' med' high, s2)
        | some (high', s3) => (true, .wealthGroup low' med' high', s3)
  | .tourism _ geo =>
    match getFloat32 s with
    | none => (false, a, s)
    | some (f, s1) =>
      match getSint64 s1 with
      | none => (false, .tourism f geo, s1)
      | some (g, s2) => (true, .tourism f g, s2)

/-- `LineItemTransaction::Write`: version word 1, the baseline, the income
byte, then the algorithm type tag (`Fixed` = 0 when no algorithm is
present) followed by the algorithm payload. -/
def lineItemTransactionWrite (t : LineItemTransaction) : List StreamItem :=
  .u32 1 :: .i64 t.perBuildingFixedCashFlow :: writeBoolean t.isIncome ::
    (match t.algorithm with
     | some a => .u32 (algType a) :: algWrite a
     | none => [.u32 0])

/-- Result of `LineItemTransaction::Read` on the receiver `t`: `.error`
models the `CreateTransactionAlgorithmException` thrown out of `Read` by
the factory on an unknown stored type tag (the stream position at the
throw is carried); `.ok (success, t, rest)` models a normal return. -/
def lineItemTransactionRead (t : LineItemTransaction) (s : List StreamItem) :
    Except (List StreamItem) (Bool × LineItemTransaction × List StreamItem) :=
  match getUint32 s with
  | none => .ok (false, t, s)
  | some (version, s1) =>
    if version ≠ 1 then .ok (false, t, s1)
    else
      match getSint64 s1 with
      | none => .ok (false, t, s1)
      | some (cashFlow, s2) =>
        let t1 := { t with perBuildingFixedCashFlow := cashFlow }
        match getUint8 s2 with
        | none => .ok (false, t1, s2)
        | some (b, s3) =>
          let t2 := { t1 with isIncome := b ≠ 0 }
          match getUint32 s3 with
          | none => .ok (false, t2, s3)
          | some (algorithmTypeAsUInt32, s4) =>
            match createFromType algorithmTypeAsUInt32 with
            | .error _ => .error s4
            | .ok none => .ok (true, { t2 with algorithm := none }, s4)
            | .ok (some a0) =>
              let (success, a, s5) := algRead a0 s4
              (.ok (success, { t2 with algorithm := some a }, s5))

/-!
## CustomBudgetDepartmentManager: registry and declarative extraction

`std::unordered_map` is embedded as an association list with distinct
keys, iterated in insertion order (the maps are only built through
`emplace`/`try_emplace`, which never overwrite, so value identity is
preserved; the unordered container's unspecified iteration order is fixed
to insertion order here).
-/

/-- The inner `lineNumber → LineItemTransaction` map of one department. -/
abbrev InnerMap := List (Nat × LineItemTransaction)

/-- The registry `departmentId → (lineNumber → LineItemTransaction)`. -/
abbrev Registry := List (Nat × InnerMap)

/-- `emplace`/`try_emplace`: insert only when the key is absent. -/
def alEmplace (m : List (Nat × α)) (k : Nat) (v : α) : List (Nat × α) :=
  if (m.lookup k).isSome then m else m ++ [(k, v)]

/-- In-place mutation of the mapped value at a key (the source holds a
reference into the map and mutates it). -/
def alReplace (m : List (Nat × α)) (k : Nat) (v : α) : List (Nat × α) :=
  m.map (fun p => if p.1 = k then (k, v) else p)

/-- `erase(key)`: removes the entry with the key, if present. -/
def alEraseKey (m : List (Nat × α)) (k : Nat) : List (Nat × α) :=
  m.eraseP (fun p => p.1 == k)

/-- The registry invariant of the spec: no department entry maps to an
empty inner line-item map. -/
def registryWellFormed (reg : Registry) : Bool :=
  reg.all (fun d => !d.2.isEmpty)

/-- `0x87BD3990`, the expense purpose id. -/
def kCustomBudgetDepartmentExpensePurposeId : Nat := 0x87BD3990
/-- `0x46261226`, the income purpose id. -/
def kCustomBudgetDepartmentIncomePurposeId : Nat := 0x46261226

/-- `ContainsCustomBudgetDepartmentPurposeId`: true when SOME element of
the purpose array is one of the two recognized purpose ids. -/
def containsCustomBudgetDepartmentPurposeId (purposeIds : List Nat) : Bool :=
  purposeIds.any (fun item =>
    item == kCustomBudgetDepartmentExpensePurposeId
      || item == kCustomBudgetDepartmentIncomePurposeId)

/-- `CustomBudgetDepartmentItemType`. -/
inductive CustomBudgetDepartmentItemType where
  | invalid
  | expense
  | income
deriving DecidableEq, Repr

/-- The transient per-building record `CustomBudgetDepartmentInfo`. -/
structure CustomBudgetDepartmentInfo where
  type : CustomBudgetDepartmentItemType
  department : Nat
  lineNumber : Nat
  budgetGroup : Nat
  cost : Int
  departmentNameKey : Nat × Nat
deriving DecidableEq, Repr

/-- The pair-table overload of `GetPropertyValue` (`Uint32Array` holding
`⟨key, value⟩` groups): requires at least one pair and an even count,
inserts first occurrence of each key (`try_emplace`). -/
def parsePairTable : Option (List Nat) → Option (List (Nat × Nat))
  | none => none
  | some raw =>
    if 2 ≤ raw.length ∧ raw.length % 2 = 0 then
      some (pairTableLoop raw [])
    else none
where
  pairTableLoop : List Nat → List (Nat × Nat) → List (Nat × Nat)
    | a :: b :: rest, m => pairTableLoop rest (alEmplace m a b)
    | _, m => m

/-- `GetBudgetDepartmentNameProperty` (`Uint32Array` holding
`⟨departmentId, groupId, instanceId⟩` triples). -/
def parseTripleTable : Option (List Nat) → Option (List (Nat × (Nat × Nat)))
  | none => none
  | some raw =>
    if 3 ≤ raw.length ∧ raw.length % 3 = 0 then
      some (tripleTableLoop raw [])
    else none
where
  tripleTableLoop : List Nat → List (Nat × (Nat × Nat)) → List (Nat × (Nat × Nat))
    | a :: b :: c :: rest, m => tripleTableLoop rest (alEmplace m a (b, c))
    | _, m => m

/-- The per-index body of `LoadCustomBudgetDepartmentInfo`'s record loop,
recursing over the four positional arrays in parallel (the caller has
already checked they have equal lengths). -/
def extractLoop : List Nat → List Nat → List Nat → List Int →
    List (Nat × Nat) → List (Nat × (Nat × Nat)) → List CustomBudgetDepartmentInfo
  | p :: ps, d :: ds, l :: ls, c :: cs, budgetGroups, departmentNameKeys =>
    let rest := extractLoop ps ds ls cs budgetGroups departmentNameKeys
    let ty : CustomBudgetDepartmentItemType :=
      if p = kCustomBudgetDepartmentExpensePurposeId then .expense
      else if p = kCustomBudgetDepartmentIncomePurposeId then .income
      else .invalid
    if ty ≠ .invalid then
      match budgetGroups.lookup d, departmentNameKeys.lookup d with
      | some group, some nameKey => ⟨ty, d, l, group, c, nameKey⟩ :: rest
      | _, _ => rest
    else rest
  | _, _, _, _, _, _ => []

/-- `CustomBudgetDepartmentManager::LoadCustomBudgetDepartmentInfo`. -/
def loadCustomBudgetDepartmentInfo (ph : PropertyHolder) :
    List CustomBudgetDepartmentInfo :=
  match ph.purpose with
  | none => []
  | some purposeIds =>
    if containsCustomBudgetDepartmentPurposeId purposeIds then
      match ph.departmentIds, ph.lineNumberIds, ph.costs,
          parsePairTable ph.budgetGroups, parseTripleTable ph.departmentNames with
      | some departmentIds, some lines, some costs, some budgetGroups,
          some departmentNameKeys =>
        let budgetDepartmentCount := departmentIds.length
        if purposeIds.length = budgetDepartmentCount
            ∧ lines.length = budgetDepartmentCount
            ∧ costs.length = budgetDepartmentCount
            ∧ departmentNameKeys.length = budgetGroups.length then
          extractLoop purposeIds departmentIds lines costs budgetGroups departmentNameKeys
        else []
      | _, _, _, _, _ => []
    else []

/-- `CreateLineItemTransactionCore`: construct the transaction (catching
the factory's construction exception as `false`) and `emplace` it. -/
def createLineItemTransactionCore (ph : PropertyHolder) (ty : Nat)
    (lineNumber : Nat) (cost : Int) (isIncome : Bool) (destination : InnerMap) :
    Bool × InnerMap :=
  match createFromProps ph ty lineNumber isIncome with
  | .error _ => (false, destination)
  | .ok alg =>
    if (destination.lookup lineNumber).isSome then (false, destination)
    else (true, destination ++ [(lineNumber, ⟨alg, cost, isIncome⟩)])

/-- `CreateLineItemTransaction`: resolve the line's algorithm type from
the `0x9EE1240F` pair table (defaulting to `Fixed` when the property or
the line's entry is missing) and construct. -/
def createLineItemTransaction (ph : PropertyHolder) (lineNumber : Nat)
    (cost : Int) (isIncome : Bool) (destination : InnerMap) : Bool × InnerMap :=
  match parsePairTable ph.lineItemAlgorithm with
  | some algorithms =>
    match algorithms.lookup lineNumber with
    | some ty => createLineItemTransactionCore ph ty lineNumber cost isIncome destination
    | none => createLineItemTransactionCore ph 0 lineNumber cost isIncome destination
  | none => createLineItemTransactionCore ph 0 lineNumber cost isIncome destination

/-- `CustomBudgetDepartmentManager::GetOrCreateLineItemTransaction`,
returning the looked-up/created transaction and the updated registry. -/
def getOrCreateLineItemTransaction (reg : Registry) (ph : PropertyHolder)
    (info : CustomBudgetDepartmentInfo) : Option LineItemTransaction × Registry :=
  match reg.lookup info.department with
  | some inner =>
    match inner.lookup info.lineNumber with
    | some t => (some t, reg)
    | none =>
      let r := createLineItemTransaction ph info.lineNumber info.cost
        (info.type == .income) inner
      ((if r.1 then r.2.lookup info.lineNumber else none),
        alReplace reg info.department r.2)
  | none =>
    let r := createLineItemTransaction ph info.lineNumber info.cost
      (info.type == .income) []
    if r.1 then
      (r.2.lookup info.lineNumber, alEmplace reg info.department r.2)
    else (none, reg)

/-- `CustomBudgetDepartmentManager::RemoveLineItemTransaction`: erase the
line from its department's inner map; when that leaves the inner map
empty, erase the department entry as well. -/
def removeLineItemTransaction (reg : Registry) (department lineNumber : Nat) :
    Registry :=
  match reg.lookup department with
  | none => reg
  | some inner =>
    if (inner.lookup lineNumber).isSome then
      let inner' := alEraseKey inner lineNumber
      if inner'.isEmpty then alEraseKey reg department
      else alReplace reg department inner'
    else reg

/-- The per-line loop of `ReadFromDBSegment`: read `lineNumber`, then the
transaction record into a fresh transaction, IGNORING the `Read` return
value, and `emplace` the result.  `.error` propagates the factory
exception an unknown stored algorithm type throws through the loop. -/
def readLineItemLoop : Nat → InnerMap → List StreamItem →
    Except (List StreamItem) (InnerMap × List StreamItem)
  | 0, lineItems, s => .ok (lineItems, s)
  | n + 1, lineItems, s =>
    let (lineItemId, s1) := getUint32D s
    match lineItemTransactionRead defaultLineItemTransaction s1 with
    | .error s2 => .error s2
    | .ok (_, t, s2) => readLineItemLoop n (alEmplace lineItems lineItemId t) s2

/-- The per-department loop of `ReadFromDBSegment`. -/
def readDeptLoop : Nat → Registry → List StreamItem →
    Except (Registry × List StreamItem) (Registry × List StreamItem)
  | 0, reg, s => .ok (reg, s)
  | n + 1, reg, s =>
    let (departmentId, s1) := getUint32D s
    let (lineItemCount, s2) := getUint32D s1
    match readLineItemLoop lineItemCount [] s2 with
    | .error s3 => .error (reg, s3)
    | .ok (lineItems, s3) => readDeptLoop n (alEmplace reg departmentId lineItems) s3

/-- `CustomBudgetDepartmentManager::ReadFromDBSegment`.  Result:
`(completedNormally, registry, remaining stream)`; `completedNormally =
false` records an exception escaping the load with the partially rebuilt
registry it leaves behind.  When the leading version word is missing or
is not 1, the in-memory registry `reg` is returned untouched; when it is
1 the registry is cleared and rebuilt from the stream. -/
def readFromDBSegment (reg : Registry) (s : List StreamItem) :
    Bool × Registry × List StreamItem :=
  match getUint32 s with
  | none => (true, reg, s)
  | some (version, s1) =>
    if version = 1 then
      let (departmentCount, s2) := getUint32D s1
      match readDeptLoop departmentCount [] s2 with
      | .ok (reg', s3) => (true, reg', s3)
      | .error (reg', s3) => (false, reg', s3)
    else (true, reg, s1)

/-- The stream written for one department's inner map. -/
def writeLineItems (lineItems : InnerMap) : List StreamItem :=
  (lineItems.map (fun li => .u32 li.1 :: lineItemTransactionWrite li.2)).flatten

/-- `CustomBudgetDepartmentManager::WriteToDBSegment`: version word 1,
department count, then each department's id, line count and line
records. -/
def writeToDBSegment (reg : Registry) : List StreamItem :=
  .u32 1 :: .u32 reg.length ::
    (reg.map (fun d => .u32 d.1 :: .u32 d.2.length :: writeLineItems d.2)).flatten

/-!
## Concrete instances used by the claim theorems
-/

/-- A provider with the spec's wealth-group example figures: city
populations 100 / 200 / 300 for the low / medium / high tiers. -/
def wealthGroupExampleProvider : PopulationProvider :=
  ⟨600,
    fun d => if d = lowWealthDemandId then 100
      else if d = mediumWealthDemandId then 200 else 300,
    fun _ => 0⟩

/-- The exact rational value of the binary32 `float` nearest 0.01 (bit
pattern `0x3C23D70A`, significand 10737418 at exponent `2^-30`) — the
value the program's `float` factor field actually holds when the
declared factor is 0.01.  It is slightly BELOW 1/100. -/
def float32NearestOneHundredth : ℚ := 10737418 / 2^30

/-- The exact rational value of the binary32 `float` nearest 0.02 (bit
pattern `0x3CA3D70A`, significand 10737418 at exponent `2^-29`),
slightly below 2/100. -/
def float32NearestTwoHundredths : ℚ := 10737418 / 2^29

/-- The exact rational value of the binary32 `float` nearest 0.03 (bit
pattern `0x3CF5C28F`, significand 16106127 at exponent `2^-29`),
slightly below 3/100. -/
def float32NearestThreeHundredths : ℚ := 16106127 / 2^29

/-- A provider with the spec's tourism example figures: city populations
10 / 20 / 30, regional populations 100 / 100 / 100. -/
def tourismExampleProvider : PopulationProvider :=
  ⟨60,
    fun d => if d = lowWealthDemandId then 10
      else if d = mediumWealthDemandId then 20 else 30,
    fun _ => 100⟩

/-- A declarative tourism factor table for line 5 whose geopolitics field
(4th element of the group) is zero: `[lineNumber, numerator, denominator,
geopolitics]`. -/
def tourismZeroGeopoliticsHolder : PropertyHolder :=
  { tourismFactors := some [5, 0, 1, 0] }

/-- A building declaration whose purpose array mixes one recognized
expense code with one unrecognized code, with all positional arrays and
tables consistent. -/
def mixedPurposeHolder : PropertyHolder :=
  { purpose := some [kCustomBudgetDepartmentExpensePurposeId, 0xDEADBEEF]
    departmentIds := some [100, 101]
    lineNumberIds := some [1, 2]
    costs := some [50, 60]
    budgetGroups := some [100, 0x4A357EAF, 101, 0x4A357EAF]
    departmentNames := some [100, 10, 20, 101, 10, 21] }

/-- The number of elements of a purpose array holding one of the two
recognized purpose codes. -/
def recognizedPurposeCount (purposeIds : List Nat) : Nat :=
  (purposeIds.filter (fun item =>
    item == kCustomBudgetDepartmentExpensePurposeId
      || item == kCustomBudgetDepartmentIncomePurposeId)).length

/-- A registry stream whose version word is 1 but whose single
transaction record carries the unsupported record version 2. -/
def corruptTransactionStream : List StreamItem :=
  [.u32 1, .u32 1, .u32 7, .u32 1, .u32 9, .u32 2]

/-- A registry stream declaring one department (id 7) with zero line
items. -/
def zeroLineCountStream : List StreamItem :=
  [.u32 1, .u32 1, .u32 7, .u32 0]

/-- A one-department, one-line registry used as a concrete initial
state. -/
def sampleRegistry : Registry :=
  [(1, [(2, defaultLineItemTransaction)])]

/-!
## Theorems
-/

/-- Sanity check of the truncation embedding: `truncQ` is the
floor/ceil characterisation of truncate-toward-zero. -/
theorem truncQ_eq_floor_ceil (q : ℚ) : truncQ q = if 0 ≤ q then ⌊q⌋ else ⌈q⌉ := by
  rcases le_or_lt 0 q with h | h
  · rw [truncQ, if_pos h, Rat.floor_def,
      Int.tdiv_eq_ediv (Rat.num_nonneg.mpr h) (Int.natCast_nonneg _)]
  · have hceil : ⌈q⌉ = -⌊-q⌋ := by rw [Int.floor_neg, neg_neg]
    rw [truncQ, if_neg (not_le.mpr h), hceil, Rat.floor_def, Rat.neg_num, Rat.neg_den]
    have h2 : (0:Int) ≤ -q.num := by
      have hn : ¬ (0 ≤ q.num) := fun hc => absurd (Rat.num_nonneg.mp hc) (not_le.mpr h)
      omega
    rw [← Int.tdiv_eq_ediv h2 (Int.natCast_nonneg _), Int.neg_tdiv, neg_neg]

/-- **C2.** For every `LineItemTransaction` and every `buildingCount ≤ 0`,
`CalculateLineItemTotal(buildingCount)` returns 0; and for every
fixed-cost transaction (no algorithm present) and every
`buildingCount > 0`, it returns exactly
`perBuildingFixedCashFlow * buildingCount` with no algorithm delta
applied. -/
theorem claim_C2_calculateLineItemTotal :
    (∀ (provider : Option PopulationProvider) (t : LineItemTransaction) (buildingCount : Int),
      buildingCount ≤ 0 → calculateLineItemTotal provider t buildingCount = 0)
    ∧ (∀ (provider : Option PopulationProvider) (t : LineItemTransaction) (buildingCount : Int),
      t.algorithm = none → 0 < buildingCount →
        calculateLineItemTotal provider t buildingCount
          = t.perBuildingFixedCashFlow * buildingCount) := by
  constructor
  · intro provider t c hc
    unfold calculateLineItemTotal
    rw [if_neg (not_lt.mpr hc)]
  · intro provider t c halg hc
    simp [calculateLineItemTotal, halg, hc]

/-- Witness for C2 at `buildingCount = -3` and at a fixed-cost
transaction with baseline 7 and `buildingCount = 2`. -/
theorem claim_C2_witness :
    calculateLineItemTotal none defaultLineItemTransaction (-3) = 0
      ∧ calculateLineItemTotal none ⟨none, 7, false⟩ 2 = 7 * 2 :=
  ⟨claim_C2_calculateLineItemTotal.1 none defaultLineItemTransaction (-3) (by decide),
    claim_C2_calculateLineItemTotal.2 none ⟨none, 7, false⟩ 2 rfl (by decide)⟩

/-- **C10.** For every algorithm variant and every initial total, when the
process-wide population provider pointer is null, `Calculate` returns the
initial total unchanged (for Tourism in particular, no division by the
geopolitics factor is reached). -/
theorem claim_C10_nullProviderIdentity :
    ∀ (a : Alg) (initialTotal : Int), algCalculate a none initialTotal = initialTotal :=
  fun _ _ => rfl

/-- Sanity check: each of the three `float32Nearest…` constants is the
correctly rounded binary32 value of its decimal — the stated significand
is within half an ulp of decimal × 2^exponent and lies in the normal
binary32 significand range `[2^23, 2^24)` — and the constants equal
significand / 2^exponent exactly. -/
theorem float32WealthFactors_correctly_rounded :
    ((10737418 : ℚ) - 1/2 < (1/100) * 2^30 ∧ ((1/100 : ℚ)) * 2^30 < 10737418 + 1/2
      ∧ (2^23 : ℚ) ≤ 10737418 ∧ (10737418 : ℚ) < 2^24
      ∧ float32NearestOneHundredth = 10737418 / 2^30)
    ∧ ((10737418 : ℚ) - 1/2 < (2/100) * 2^29 ∧ ((2/100 : ℚ)) * 2^29 < 10737418 + 1/2
      ∧ float32NearestTwoHundredths = 10737418 / 2^29)
    ∧ ((16106127 : ℚ) - 1/2 < (3/100) * 2^29 ∧ ((3/100 : ℚ)) * 2^29 < 16106127 + 1/2
      ∧ (2^23 : ℚ) ≤ 16106127 ∧ (16106127 : ℚ) < 2^24
      ∧ float32NearestThreeHundredths = 16106127 / 2^29) := by
  norm_num [float32NearestOneHundredth, float32NearestTwoHundredths,
    float32NearestThreeHundredths]

/-- 100 × float32(0.01) = 0.99999997…, truncating to 0 (not 1). -/
theorem truncQ_wealthLowTerm : truncQ ((100 : ℚ) * float32NearestOneHundredth) = 0 := by
  rw [truncQ_eq_floor_ceil, if_pos (by norm_num [float32NearestOneHundredth]),
    Int.floor_eq_iff]
  norm_num [float32NearestOneHundredth]

/-- 200 × float32(0.02) = 3.9999999…, truncating to 3 (not 4). -/
theorem truncQ_wealthMidTerm : truncQ ((200 : ℚ) * float32NearestTwoHundredths) = 3 := by
  rw [truncQ_eq_floor_ceil, if_pos (by norm_num [float32NearestTwoHundredths]),
    Int.floor_eq_iff]
  norm_num [float32NearestTwoHundredths]

/-- 300 × float32(0.03) = 8.9999997…, truncating to 8 (not 9). -/
theorem truncQ_wealthHighTerm : truncQ ((300 : ℚ) * float32NearestThreeHundredths) = 8 := by
  rw [truncQ_eq_floor_ceil, if_pos (by norm_num [float32NearestThreeHundredths]),
    Int.floor_eq_iff]
  norm_num [float32NearestThreeHundredths]

/-- **C8 counterexample.** The claim's example states the added delta is
14 with factors (0.01, 0.02, 0.03) and city populations (100, 200, 300).
The program stores the factors as binary32 `float`, and none of those
decimals is representable: at the nearest representable factor values
(`float32Nearest…`, bit patterns 0x3C23D70A / 0x3CA3D70A / 0x3CF5C28F)
every per-tier product falls just below the exact-decimal integer and
truncation toward zero yields 0 + 3 + 8 = 11, not 14.  Each product here
is exactly representable in `double` (a 24-bit significand times a small
integer), so this rational evaluation agrees with the program's float
arithmetic bit for bit. -/
theorem claim_C8_counterexample :
    algCalculate (.wealthGroup float32NearestOneHundredth float32NearestTwoHundredths
        float32NearestThreeHundredths) (some wealthGroupExampleProvider) 0 = 11
      ∧ algCalculate (.wealthGroup float32NearestOneHundredth float32NearestTwoHundredths
        float32NearestThreeHundredths) (some wealthGroupExampleProvider) 0 ≠ 14 := by
  have hp1 : ((wealthGroupExampleProvider.cityPopulation lowWealthDemandId : Int) : ℚ)
      = 100 := by
    norm_num [wealthGroupExampleProvider, lowWealthDemandId]
  have hp2 : ((wealthGroupExampleProvider.cityPopulation mediumWealthDemandId : Int) : ℚ)
      = 200 := by
    norm_num [wealthGroupExampleProvider, lowWealthDemandId, mediumWealthDemandId]
  have hp3 : ((wealthGroupExampleProvider.cityPopulation highWealthDemandId : Int) : ℚ)
      = 300 := by
    norm_num [wealthGroupExampleProvider, lowWealthDemandId, mediumWealthDemandId,
      highWealthDemandId]
  have h : algCalculate (.wealthGroup float32NearestOneHundredth float32NearestTwoHundredths
      float32NearestThreeHundredths) (some wealthGroupExampleProvider) 0 = 11 := by
    simp only [algCalculate]
    rw [hp1, hp2, hp3, truncQ_wealthLowTerm, truncQ_wealthMidTerm, truncQ_wealthHighTerm]
    decide
  exact ⟨h, by rw [h]; decide⟩

/-- **C8 (amended).** `ResidentialWealthGroupPopulationAlgorithm::
Calculate` adds the sum, in the fixed order low then medium then high,
of the three per-tier terms `cityPopulation[tier] * factor[tier]`, each
truncated toward zero independently before summing; the factors are
`float` fields, and at the representable factor values nearest
(0.01, 0.02, 0.03) with city populations (100, 200, 300) the added
delta is 11 — each per-tier product falls just below its exact-decimal
value and truncates one lower. -/
theorem claim_C8_wealthGroupCalculate :
    (∀ (p : PopulationProvider) (low med high : ℚ) (initialTotal : Int),
      algCalculate (.wealthGroup low med high) (some p) initialTotal
        = initialTotal
          + (([(lowWealthDemandId, low), (mediumWealthDemandId, med),
                (highWealthDemandId, high)].map
              (fun tier => truncQ ((p.cityPopulation tier.1 : ℚ) * tier.2))).sum))
    ∧ (∀ initialTotal : Int,
      algCalculate (.wealthGroup float32NearestOneHundredth float32NearestTwoHundredths
          float32NearestThreeHundredths)
        (some wealthGroupExampleProvider) initialTotal = initialTotal + 11) := by
  constructor
  · intro p low med high t
    simp [algCalculate]
    ring
  · intro t
    have hp1 : ((wealthGroupExampleProvider.cityPopulation lowWealthDemandId : Int) : ℚ)
        = 100 := by
      norm_num [wealthGroupExampleProvider, lowWealthDemandId]
    have hp2 : ((wealthGroupExampleProvider.cityPopulation mediumWealthDemandId : Int) : ℚ)
        = 200 := by
      norm_num [wealthGroupExampleProvider, lowWealthDemandId, mediumWealthDemandId]
    have hp3 : ((wealthGroupExampleProvider.cityPopulation highWealthDemandId : Int) : ℚ)
        = 300 := by
      norm_num [wealthGroupExampleProvider, lowWealthDemandId, mediumWealthDemandId,
        highWealthDemandId]
    simp only [algCalculate]
    rw [hp1, hp2, hp3, truncQ_wealthLowTerm, truncQ_wealthMidTerm, truncQ_wealthHighTerm]
    omega

/-- **C9.** `TourismAlgorithm::Calculate` adds the truncating integer
quotient of (city low + city medium + city high + the three per-tier
regional populations each scaled by the tourism factor and truncated) by
the geopolitics factor; with tourism factor 0.5, geopolitics factor 2,
city populations (10, 20, 30) and regional populations (100, 100, 100)
the added delta is 105. -/
theorem claim_C9_tourismCalculate :
    (∀ (p : PopulationProvider) (factor : ℚ) (geopoliticsFactor initialTotal : Int),
      algCalculate (.tourism factor geopoliticsFactor) (some p) initialTotal
        = initialTotal
          + (p.cityPopulation lowWealthDemandId + p.cityPopulation mediumWealthDemandId
              + p.cityPopulation highWealthDemandId
              + truncQ ((p.regionPopulation lowWealthDemandId : ℚ) * factor)
              + truncQ ((p.regionPopulation mediumWealthDemandId : ℚ) * factor)
              + truncQ ((p.regionPopulation highWealthDemandId : ℚ) * factor)).tdiv
            geopoliticsFactor)
    ∧ (∀ initialTotal : Int,
      algCalculate (.tourism (1/2) 2) (some tourismExampleProvider) initialTotal
        = initialTotal + 105) := by
  constructor
  · intro p factor g t
    rfl
  · intro t
    have h : Int.tdiv 210 2 = 105 := by decide
    norm_num [algCalculate, truncQ, getRegionalTourismPopulation, tourismExampleProvider,
      lowWealthDemandId, mediumWealthDemandId, highWealthDemandId, h]

/-- **C7 counterexample.** The claim states that BOTH factory
construction paths fail on an algorithm type value outside the four
defined enum members.  The stored-tag path does throw, but the
declarative path at the unknown type value 7 silently returns the null
handle — the Fixed "no algorithm" result — with no error. -/
theorem claim_C7_counterexample :
    createFromType 7 = .error .message ∧ createFromProps {} 7 0 false = .ok none :=
  ⟨rfl, rfl⟩

/-- **C7 (amended).** The stored-tag construction path fails with a
construction error for every algorithm type value outside the four
defined enum members; the declarative construction path instead treats
every type value other than the three variable algorithms — including all
unknown values — as Fixed, silently returning the null "no algorithm"
handle. -/
theorem claim_C7_amendedUnknownType :
    (∀ ty : Nat, ty ≠ 0 → ty ≠ 1 → ty ≠ 2 → ty ≠ 3 →
      createFromType ty = .error .message)
    ∧ (∀ (ph : PropertyHolder) (ty lineNumber : Nat) (isIncome : Bool),
      ty ≠ 1 → ty ≠ 2 → ty ≠ 3 →
        createFromProps ph ty lineNumber isIncome = .ok none) := by
  constructor
  · intro ty h0 h1 h2 h3
    simp [createFromType, h0, h1, h2, h3]
  · intro ph ty lineNumber isIncome h1 h2 h3
    simp [createFromProps, h1, h2, h3]

/-- Witness for the amended C7 at the unknown type value 9. -/
theorem claim_C7_witness :
    createFromType 9 = .error .message ∧ createFromProps {} 9 4 true = .ok none :=
  ⟨claim_C7_amendedUnknownType.1 9 (by decide) (by decide) (by decide) (by decide),
    claim_C7_amendedUnknownType.2 {} 9 4 true (by decide) (by decide) (by decide)⟩

/-- **C1 counterexample.** The claim states a declarative factor table
whose geopolitics field is zero or negative causes a construction error.
On a table whose group for line 5 carries geopolitics factor 0,
construction SUCCEEDS and returns a Tourism algorithm whose stored
geopolitics factor is 0 (so `Calculate` would divide by zero). -/
theorem claim_C1_counterexample :
    createFromProps tourismZeroGeopoliticsHolder 3 5 false
      = .ok (some (.tourism 0 0)) := rfl

/-- **C1 (amended).** The declarative Tourism construction path validates
only the rational tourism factor (numerator within `int32_t` range,
denominator in `1 .. INT32_MAX`); the geopolitics factor is copied from
the table's third data element with no validation at all, so construction
succeeds for EVERY geopolitics value, including zero and negative
values, and the division inside `Calculate` is not protected. -/
theorem claim_C1_amendedGeopoliticsUnvalidated :
    ∀ (ph : PropertyHolder) (lineNumber : Nat) (num den geo : Int),
      ph.tourismFactors = some [(lineNumber : Int), num, den, geo] →
      -(2^31) ≤ num → num ≤ 2^31 - 1 → 1 ≤ den → den ≤ 2^31 - 1 →
      createFromProps ph 3 lineNumber false
        = .ok (some (.tourism (if num = 0 then 0 else (num : ℚ) / (den : ℚ)) geo)) := by
  intro ph lineNumber num den geo hph h1 h2 h3 h4
  have hr : rational64ToFloat num den
      = .ok (if num = 0 then 0 else (num : ℚ) / (den : ℚ)) := by
    unfold rational64ToFloat
    rw [if_neg (by omega), if_neg (by omega)]
    by_cases hnum : num = 0
    · rw [if_pos hnum, if_pos hnum]
    · rw [if_neg hnum, if_neg hnum]
  have hdata : getLineItemData ph.tourismFactors (lineNumber : Int) 4
      = .ok [num, den, geo] := by
    rw [hph]
    unfold getLineItemData findLineItemDataStartIndex
    norm_num [List.range_succ]
    rfl
  simp [createFromProps, hdata, hr]

/-- Witness for the amended C1: a table for line 5 with rational factor
1/2 and NEGATIVE geopolitics factor -7 constructs successfully. -/
theorem claim_C1_witness :
    createFromProps { tourismFactors := some [5, 1, 2, -7] } 3 5 false
      = .ok (some (.tourism
          (if (1 : Int) = 0 then 0 else ((1 : Int) : ℚ) / ((2 : Int) : ℚ)) (-7))) :=
  claim_C1_amendedGeopoliticsUnvalidated { tourismFactors := some [5, 1, 2, -7] } 5 1 2 (-7)
    (by norm_num) (by norm_num) (by norm_num) (by norm_num) (by norm_num)

/-- Write-then-read round trip of one transaction record with an
arbitrary stream suffix: reading into a freshly default-constructed
transaction succeeds, reconstructs exactly the written state, and
consumes exactly the written items. -/
theorem lineItemTransaction_write_read_roundTrip (t : LineItemTransaction)
    (rest : List StreamItem) :
    lineItemTransactionRead defaultLineItemTransaction (lineItemTransactionWrite t ++ rest)
      = .ok (true, t, rest) := by
  obtain ⟨alg, cashFlow, inc⟩ := t
  cases alg with
  | none =>
    cases inc <;>
      simp [lineItemTransactionWrite, lineItemTransactionRead, writeBoolean,
        getUint32, getSint64, getUint8, createFromType, defaultLineItemTransaction]
  | some a =>
    cases a <;> cases inc <;>
      simp [lineItemTransactionWrite, lineItemTransactionRead, writeBoolean, algWrite,
        algRead, algType, getUint32, getSint64, getUint8, getFloat32, createFromType,
        defaultLineItemTransaction]

/-- **C3.** For every `LineItemTransaction` (all four algorithm types,
`Fixed` included as the absent algorithm), writing with `Write` and
reading the written items back with `Read` into a fresh transaction
succeeds and reconstructs identical state: the same baseline, income
flag, algorithm type, and identical factor fields. -/
theorem claim_C3_writeReadRoundTrip :
    ∀ t : LineItemTransaction,
      lineItemTransactionRead defaultLineItemTransaction (lineItemTransactionWrite t)
        = .ok (true, t, []) := by
  intro t
  simpa using lineItemTransaction_write_read_roundTrip t []

/-- **C4 counterexample.** The claim states corrupt data after the
version word (such as a per-transaction record whose own version is not
1) never leaves a partially populated registry.  Loading
`corruptTransactionStream` (registry version 1, one department, whose
single transaction record carries record version 2, so its `Read` fails)
over a non-empty in-memory registry replaces it with a registry holding
the half-read record — the failed `Read` result is ignored. -/
theorem claim_C4_counterexample :
    readFromDBSegment sampleRegistry corruptTransactionStream
      = (true, [(7, [(9, defaultLineItemTransaction)])], []) := rfl

/-- **C4 (amended).** When the stream does not begin with version word 1
(missing, unreadable, or any other version value), `ReadFromDBSegment`
returns normally and leaves the in-memory registry completely unchanged.
(Corrupt data AFTER a valid version word, by contrast, can partially
populate the registry, because per-record read failures are ignored —
see the counterexample.) -/
theorem claim_C4_amendedVersionGuard :
    ∀ (reg : Registry) (s : List StreamItem),
      (∀ rest : List StreamItem, s ≠ StreamItem.u32 1 :: rest) →
      (readFromDBSegment reg s).1 = true ∧ (readFromDBSegment reg s).2.1 = reg := by
  intro reg s h
  match s with
  | [] => exact ⟨rfl, rfl⟩
  | .u32 v :: rest =>
    have hv : v ≠ 1 := fun hv1 => h rest (by rw [hv1])
    simp [readFromDBSegment, getUint32, hv]
  | .i64 v :: rest => exact ⟨rfl, rfl⟩
  | .u8 v :: rest => exact ⟨rfl, rfl⟩
  | .f32 v :: rest => exact ⟨rfl, rfl⟩

/-- Witness for the amended C4: loading a stream whose version word is 2
over a one-department registry completes normally and changes nothing. -/
theorem claim_C4_witness :
    (readFromDBSegment sampleRegistry [StreamItem.u32 2]).1 = true
      ∧ (readFromDBSegment sampleRegistry [StreamItem.u32 2]).2.1 = sampleRegistry :=
  claim_C4_amendedVersionGuard sampleRegistry [StreamItem.u32 2] (by intro rest; simp)

/-- **C5 counterexample.** The claim includes registry load among the
operations that never leave a department entry with an empty inner map.
Loading a (version 1) stream declaring one department with zero line
items leaves the department entry `(7, [])` with an empty inner map in
the registry. -/
theorem claim_C5_counterexample :
    readFromDBSegment [] zeroLineCountStream = (true, [(7, [])], [])
      ∧ registryWellFormed [(7, [])] = false :=
  ⟨rfl, rfl⟩

/-- **C6 counterexample.** The claim states a purpose array containing
any unrecognized code yields zero records.  On a declaration whose
purpose array is [expense-code, 0xDEADBEEF] with consistent positional
arrays, extraction yields ONE record (the unrecognized element is
skipped individually, not the whole extraction). -/
theorem claim_C6_counterexample :
    loadCustomBudgetDepartmentInfo mixedPurposeHolder
      = [⟨.expense, 100, 1, 0x4A357EAF, 50, (10, 20)⟩] := rfl

/-- A purpose array with no recognized element makes
`ContainsCustomBudgetDepartmentPurposeId` return false. -/
theorem containsPurposeId_eq_false_of_none_recognized (l : List Nat)
    (h : recognizedPurposeCount l = 0) :
    containsCustomBudgetDepartmentPurposeId l = false := by
  rw [recognizedPurposeCount, List.length_eq_zero] at h
  rw [containsCustomBudgetDepartmentPurposeId, List.any_eq_false]
  intro x hx
  exact List.filter_eq_nil_iff.mp h x hx


/-- The record loop produces at most one record per recognized purpose
element. -/
theorem extractLoop_length_le (ps ds ls : List Nat) (cs : List Int)
    (groups : List (Nat × Nat)) (names : List (Nat × (Nat × Nat))) :
    (extractLoop ps ds ls cs groups names).length ≤ recognizedPurposeCount ps := by
  induction ps generalizing ds ls cs with
  | nil =>
    cases ds <;> cases ls <;> cases cs <;>
      simp [extractLoop, recognizedPurposeCount]
  | cons p pt ih =>
    have hcount : recognizedPurposeCount (p :: pt)
        = (if p == kCustomBudgetDepartmentExpensePurposeId
              || p == kCustomBudgetDepartmentIncomePurposeId then 1 else 0)
          + recognizedPurposeCount pt := by
      rw [recognizedPurposeCount, recognizedPurposeCount, List.filter_cons]
      split <;> simp [Nat.add_comm]
    cases ds with
    | nil => simp [extractLoop, hcount]
    | cons d dt =>
      cases ls with
      | nil => simp [extractLoop, hcount]
      | cons l lt =>
        cases cs with
        | nil => simp [extractLoop, hcount]
        | cons c ct =>
          have hrec := ih dt lt ct
          rw [extractLoop, hcount]
          by_cases hp1 : p = kCustomBudgetDepartmentExpensePurposeId
          · subst hp1
            rcases hg : List.lookup d groups with _ | g
            · simp [hg]
              omega
            · rcases hn : List.lookup d names with _ | nk
              · simp [hg, hn]
                omega
              · simp [hg, hn]
                omega
          · by_cases hp2 : p = kCustomBudgetDepartmentIncomePurposeId
            · subst hp2
              rcases hg : List.lookup d groups with _ | g
              · simp [hg, hp1]
                omega
              · rcases hn : List.lookup d names with _ | nk
                · simp [hg, hn, hp1]
                  omega
                · simp [hg, hn, hp1]
                  omega
            · simp [hp1, hp2]
              omega

/-- **C6 (amended).** Declarative info extraction produces records only
when SOME element of the purpose array is one of the two recognized
purpose codes: a purpose array that is empty or contains no recognized
code yields zero records, without raising an error, and each individual
element with an unrecognized code is skipped (never more records than
recognized elements). -/
theorem claim_C6_amendedAnyRecognized :
    (∀ (ph : PropertyHolder) (l : List Nat),
      ph.purpose = some l → recognizedPurposeCount l = 0 →
        loadCustomBudgetDepartmentInfo ph = [])
    ∧ (∀ ph : PropertyHolder,
      (loadCustomBudgetDepartmentInfo ph).length
        ≤ recognizedPurposeCount (ph.purpose.getD [])) := by
  constructor
  · intro ph l hl hc
    have hfalse := containsPurposeId_eq_false_of_none_recognized l hc
    unfold loadCustomBudgetDepartmentInfo
    rw [hl]
    simp [hfalse]
  · intro ph
    unfold loadCustomBudgetDepartmentInfo
    rcases hp : ph.purpose with _ | l
    · simp [recognizedPurposeCount]
    · simp only [Option.getD_some]
      by_cases hc : containsCustomBudgetDepartmentPurposeId l = true
      · simp only [hc, if_true]
        split
        · split
          · apply extractLoop_length_le
          · simp
        · simp
      · simp only [hc, if_false]
        simp

/-- Witness for the amended C6: a purpose array holding a single
unrecognized code yields zero records. -/
theorem claim_C6_witness :
    loadCustomBudgetDepartmentInfo { purpose := some [123] } = [] :=
  claim_C6_amendedAnyRecognized.1 { purpose := some [123] } [123] rfl (by decide)

/-- A successful association-list lookup locates a member pair. -/
theorem alLookup_mem {α : Type} {m : List (Nat × α)} {k : Nat} {v : α}
    (h : m.lookup k = some v) : (k, v) ∈ m := by
  induction m with
  | nil => simp [List.lookup] at h
  | cons a tl ih =>
    obtain ⟨k', v'⟩ := a
    rw [List.lookup_cons] at h
    cases hbeq : k == k'
    · rw [hbeq] at h
      exact List.mem_cons_of_mem _ (ih h)
    · rw [hbeq] at h
      have hk : k = k' := by simpa using hbeq
      have hv : v' = v := by simpa using h
      subst hk
      subst hv
      exact List.mem_cons_self _ _

/-- Every member of a well-formed registry has a non-empty inner map. -/
theorem registryWellFormed_mem {reg : Registry}
    (h : registryWellFormed reg = true) {p : Nat × InnerMap} (hp : p ∈ reg) :
    p.2.isEmpty = false := by
  have := List.all_eq_true.mp h p hp
  simpa using this

/-- Erasing a key preserves registry well-formedness. -/
theorem alEraseKey_wf {reg : Registry} (h : registryWellFormed reg = true)
    (k : Nat) : registryWellFormed (alEraseKey reg k) = true := by
  apply List.all_eq_true.mpr
  intro x hx
  exact List.all_eq_true.mp h x ((List.eraseP_sublist reg).subset hx)

/-- Replacing a key's value by a non-empty inner map preserves registry
well-formedness. -/
theorem alReplace_wf {reg : Registry} (h : registryWellFormed reg = true)
    (k : Nat) {v : InnerMap} (hv : v.isEmpty = false) :
    registryWellFormed (alReplace reg k v) = true := by
  apply List.all_eq_true.mpr
  intro x hx
  rcases List.mem_map.mp hx with ⟨y, hy, rfl⟩
  by_cases hk : y.1 = k
  · simp [hk, hv]
  · simp only [if_neg hk]
    exact List.all_eq_true.mp h y hy

/-- Emplacing a non-empty inner map preserves registry
well-formedness. -/
theorem alEmplace_wf {reg : Registry} (h : registryWellFormed reg = true)
    (k : Nat) {v : InnerMap} (hv : v.isEmpty = false) :
    registryWellFormed (alEmplace reg k v) = true := by
  unfold alEmplace
  cases hs : (reg.lookup k).isSome with
  | true => simpa using h
  | false =>
    rw [registryWellFormed] at h
    simp [registryWellFormed, List.all_append, h, hv]

/-- `CreateLineItemTransactionCore` either fails leaving the destination
unchanged, or succeeds appending exactly the new transaction for the
requested line. -/
theorem createLineItemTransactionCore_cases (ph : PropertyHolder)
    (ty lineNumber : Nat) (cost : Int) (isIncome : Bool) (destination : InnerMap) :
    createLineItemTransactionCore ph ty lineNumber cost isIncome destination
        = (false, destination)
    ∨ (∃ alg, createLineItemTransactionCore ph ty lineNumber cost isIncome destination
        = (true, destination ++ [(lineNumber, ⟨alg, cost, isIncome⟩)])) := by
  unfold createLineItemTransactionCore
  cases hcp : createFromProps ph ty lineNumber isIncome with
  | error e => left; rfl
  | ok alg =>
    by_cases hs : (destination.lookup lineNumber).isSome
    · left; simp [hs]
    · right; exact ⟨alg, by simp [hs]⟩

/-- `CreateLineItemTransaction` either fails leaving the destination
unchanged, or succeeds appending exactly the new transaction. -/
theorem createLineItemTransaction_cases (ph : PropertyHolder)
    (lineNumber : Nat) (cost : Int) (isIncome : Bool) (destination : InnerMap) :
    createLineItemTransaction ph lineNumber cost isIncome destination
        = (false, destination)
    ∨ (∃ alg, createLineItemTransaction ph lineNumber cost isIncome destination
        = (true, destination ++ [(lineNumber, ⟨alg, cost, isIncome⟩)])) := by
  unfold createLineItemTransaction
  split
  · split
    · exact createLineItemTransactionCore_cases ph _ lineNumber cost isIncome destination
    · exact createLineItemTransactionCore_cases ph 0 lineNumber cost isIncome destination
  · exact createLineItemTransactionCore_cases ph 0 lineNumber cost isIncome destination

/-- `RemoveLineItemTransaction` preserves the no-empty-inner-map
invariant: erasing a line that leaves its department empty erases the
department entry too. -/
theorem removeLineItemTransaction_wf (reg : Registry) (department lineNumber : Nat)
    (h : registryWellFormed reg = true) :
    registryWellFormed (removeLineItemTransaction reg department lineNumber) = true := by
  unfold removeLineItemTransaction
  cases hl : reg.lookup department with
  | none => exact h
  | some inner =>
    by_cases hs : (inner.lookup lineNumber).isSome
    · simp only [hs, if_true]
      cases he : (alEraseKey inner lineNumber).isEmpty with
      | true =>
        simpa using alEraseKey_wf h department
      | false =>
        simpa using alReplace_wf h department he
    · have hs2 : (inner.lookup lineNumber).isSome = false := Bool.eq_false_iff.mpr hs
      simp [hs2, h]

/-- `GetOrCreateLineItemTransaction` preserves the no-empty-inner-map
invariant: an existing department's inner map only ever grows, and a new
department entry is only emplaced when its single-line inner map was
successfully populated. -/
theorem getOrCreateLineItemTransaction_wf (reg : Registry) (ph : PropertyHolder)
    (info : CustomBudgetDepartmentInfo) (h : registryWellFormed reg = true) :
    registryWellFormed (getOrCreateLineItemTransaction reg ph info).2 = true := by
  unfold getOrCreateLineItemTransaction
  split
  next inner hl =>
    split
    next t hll => exact h
    next hll =>
      have hinner : inner.isEmpty = false := registryWellFormed_mem h (alLookup_mem hl)
      rcases createLineItemTransaction_cases ph info.lineNumber info.cost
          (info.type == .income) inner with heq | ⟨alg, heq⟩
      · rw [heq]
        simpa using alReplace_wf h info.department hinner
      · rw [heq]
        have hne : (inner ++ [(info.lineNumber,
            (⟨alg, info.cost, info.type == .income⟩ : LineItemTransaction))]).isEmpty = false := by
          cases inner <;> simp
        simpa using alReplace_wf h info.department hne
  next hl =>
    rcases createLineItemTransaction_cases ph info.lineNumber info.cost
        (info.type == .income) [] with heq | ⟨alg, heq⟩
    · simp [heq, h]
    · rw [heq]
      have hne : (([] : InnerMap) ++ [(info.lineNumber,
          (⟨alg, info.cost, info.type == .income⟩ : LineItemTransaction))]).isEmpty = false := by
        simp
      simpa using alEmplace_wf h info.department hne

/-- Stream written for a non-empty inner map, head line first. -/
theorem writeLineItems_cons (k : Nat) (t : LineItemTransaction) (tl : InnerMap) :
    writeLineItems ((k, t) :: tl)
      = StreamItem.u32 k :: (lineItemTransactionWrite t ++ writeLineItems tl) := by
  simp [writeLineItems]

/-- Reading back the written line items of one department appends exactly
those lines to the accumulator map (keys distinct and fresh). -/
theorem readLineItemLoop_write (lines : InnerMap) :
    ∀ (acc : InnerMap) (rest : List StreamItem),
      (∀ k ∈ lines.map Prod.fst, acc.lookup k = none) →
      (lines.map Prod.fst).Nodup →
      readLineItemLoop lines.length acc (writeLineItems lines ++ rest)
        = .ok (acc ++ lines, rest) := by
  induction lines with
  | nil =>
    intro acc rest _ _
    simp [writeLineItems, readLineItemLoop]
  | cons head tl ih =>
    obtain ⟨k, t⟩ := head
    intro acc rest hdisj hnodup
    have hk : acc.lookup k = none := hdisj k (by simp)
    have hknotin : k ∉ tl.map Prod.fst := (List.nodup_cons.mp (by simpa using hnodup)).1
    rw [writeLineItems_cons, List.length_cons]
    have hstream : (StreamItem.u32 k :: (lineItemTransactionWrite t ++ writeLineItems tl)) ++ rest
        = StreamItem.u32 k :: (lineItemTransactionWrite t ++ (writeLineItems tl ++ rest)) := by
      simp
    have hemp : alEmplace acc k t = acc ++ [(k, t)] := by
      simp [alEmplace, hk]
    have hdisj2 : ∀ k2 ∈ tl.map Prod.fst, (acc ++ [(k, t)]).lookup k2 = none := by
      intro k2 hk2
      rw [List.lookup_append]
      have h1 : acc.lookup k2 = none := hdisj k2 (by simp [hk2])
      have hkk : (k2 == k) = false := by
        have : k2 ≠ k := fun hck => hknotin (hck ▸ hk2)
        simpa using this
      rw [h1]
      simp [List.lookup_cons, hkk]
    have hih := ih (acc ++ [(k, t)]) rest hdisj2
      ((List.nodup_cons.mp (by simpa using hnodup)).2)
    rw [hstream, readLineItemLoop]
    simp [getUint32D, getUint32, hemp, hih,
      lineItemTransaction_write_read_roundTrip t (writeLineItems tl ++ rest)]

/-- Reading back the written departments appends exactly those
departments to the accumulator registry (keys distinct and fresh, inner
keys distinct). -/
theorem readDeptLoop_write (depts : Registry) :
    ∀ (acc : Registry) (rest : List StreamItem),
      (∀ k ∈ depts.map Prod.fst, acc.lookup k = none) →
      (depts.map Prod.fst).Nodup →
      (∀ p ∈ depts, (p.2.map Prod.fst).Nodup) →
      readDeptLoop depts.length acc
        ((depts.map (fun d => StreamItem.u32 d.1 :: StreamItem.u32 d.2.length
            :: writeLineItems d.2)).flatten ++ rest)
        = .ok (acc ++ depts, rest) := by
  induction depts with
  | nil =>
    intro acc rest _ _ _
    simp [readDeptLoop]
  | cons head tl ih =>
    obtain ⟨dId, lines⟩ := head
    intro acc rest hdisj hnodup hinner
    have hd : acc.lookup dId = none := hdisj dId (by simp)
    have hdnotin : dId ∉ tl.map Prod.fst := (List.nodup_cons.mp (by simpa using hnodup)).1
    have hstream : ((List.map (fun d => StreamItem.u32 d.1 :: StreamItem.u32 d.2.length
          :: writeLineItems d.2) ((dId, lines) :: tl)).flatten) ++ rest
        = StreamItem.u32 dId :: StreamItem.u32 lines.length ::
            (writeLineItems lines
              ++ ((List.map (fun d => StreamItem.u32 d.1 :: StreamItem.u32 d.2.length
                  :: writeLineItems d.2) tl).flatten ++ rest)) := by
      simp
    have hemp : alEmplace acc dId lines = acc ++ [(dId, lines)] := by
      simp [alEmplace, hd]
    have hdisj2 : ∀ k2 ∈ tl.map Prod.fst, (acc ++ [(dId, lines)]).lookup k2 = none := by
      intro k2 hk2
      rw [List.lookup_append]
      have h1 : acc.lookup k2 = none := hdisj k2 (by simp [hk2])
      have hkk : (k2 == dId) = false := by
        have : k2 ≠ dId := fun hck => hdnotin (hck ▸ hk2)
        simpa using this
      rw [h1]
      simp [List.lookup_cons, hkk]
    have hih := ih (acc ++ [(dId, lines)]) rest hdisj2
      ((List.nodup_cons.mp (by simpa using hnodup)).2)
      (fun p hp => hinner p (List.mem_cons_of_mem _ hp))
    have hlines := readLineItemLoop_write lines [] ((List.map (fun d => StreamItem.u32 d.1
        :: StreamItem.u32 d.2.length :: writeLineItems d.2) tl).flatten ++ rest)
      (by intro k hk; rfl) (hinner (dId, lines) (by simp))
    rw [List.length_cons, hstream, readDeptLoop]
    simp [getUint32D, getUint32, hemp, hih, hlines]

/-- Save/load round trip: loading the stream written by
`WriteToDBSegment` (from any prior in-memory registry) rebuilds exactly
the saved registry and consumes the whole stream. -/
theorem readFromDBSegment_write (reg0 reg : Registry)
    (hnodup : (reg.map Prod.fst).Nodup)
    (hinner : ∀ p ∈ reg, (p.2.map Prod.fst).Nodup) :
    readFromDBSegment reg0 (writeToDBSegment reg) = (true, reg, []) := by
  unfold writeToDBSegment readFromDBSegment
  simp only [getUint32, getUint32D, if_pos rfl]
  have h := readDeptLoop_write reg [] [] (by intro k hk; rfl) hnodup hinner
  rw [List.append_nil] at h
  rw [h]
  simp

/-- **C5 (amended).** Removing a line (including transaction rollback)
and obtain-or-create during building insertion preserve the invariant
that no department entry has an empty inner line-item map; registry load
rebuilds exactly what save wrote (so loading self-written data also
preserves the invariant).  Loading an arbitrary (corrupt) stream,
however, CAN leave an empty inner map — see the counterexample. -/
theorem claim_C5_amendedRegistryInvariant :
    (∀ (reg : Registry) (department lineNumber : Nat),
      registryWellFormed reg = true →
        registryWellFormed (removeLineItemTransaction reg department lineNumber) = true)
    ∧ (∀ (reg : Registry) (ph : PropertyHolder) (info : CustomBudgetDepartmentInfo),
      registryWellFormed reg = true →
        registryWellFormed (getOrCreateLineItemTransaction reg ph info).2 = true)
    ∧ (∀ (reg0 reg : Registry),
      (reg.map Prod.fst).Nodup →
      (∀ p ∈ reg, (p.2.map Prod.fst).Nodup) →
        readFromDBSegment reg0 (writeToDBSegment reg) = (true, reg, [])) :=
  ⟨removeLineItemTransaction_wf, getOrCreateLineItemTransaction_wf, readFromDBSegment_write⟩

/-- Witness for the amended C5 on a concrete one-department registry. -/
theorem claim_C5_witness :
    registryWellFormed (removeLineItemTransaction sampleRegistry 1 2) = true
      ∧ registryWellFormed (getOrCreateLineItemTransaction sampleRegistry {}
          ⟨.expense, 3, 4, 0, 5, (0, 0)⟩).2 = true
      ∧ readFromDBSegment [] (writeToDBSegment sampleRegistry) = (true, sampleRegistry, []) :=
  ⟨claim_C5_amendedRegistryInvariant.1 sampleRegistry 1 2 (by decide),
    claim_C5_amendedRegistryInvariant.2.1 sampleRegistry {} ⟨.expense, 3, 4, 0, 5, (0, 0)⟩
      (by decide),
    claim_C5_amendedRegistryInvariant.2.2 [] sampleRegistry (by decide) (by decide)⟩
